import Mathlib

/-!
Verification of the document extraction-and-normalization pipeline of the
Casium repository (`doc_classifier.py`, `models.py`).

The Python source is shallowly embedded below.  Pure helpers of the source
(`convert_date_to_standard_format`, `validate_field_value`, the reply
handling of `process_image_with_gemini`, the parse/persist logic of
`classify_document` and the upsert of `update_field`) become Lean
functions; the Python standard library pieces they call (`json.loads`,
`datetime.strptime`, `re.match` for the two fixed patterns, `str.strip`,
`str.lower`, `str.replace`) are modelled by executable Lean functions
faithful to CPython semantics on the relevant inputs.  Modelling notes:

* Characters are treated at the Unicode code-point level; `str.strip`,
  `\s` and `\d` are modelled with their ASCII subsets (the pipeline's
  fixed patterns and prompts are ASCII).
* `re`'s `$` anchor is modelled faithfully: it also matches just before a
  single trailing newline.
* JSON numbers that carry a fraction, an exponent, or are one of the
  `NaN`/`Infinity` constants are kept as their source lexeme; CPython's
  float re-formatting is not re-implemented (no property below depends on
  it).  A `\uXXXX` escape that is a lone surrogate is mapped through
  `Char.ofNat`'s fallback rather than kept as a surrogate code unit.
* `datetime.strptime` is modelled including its token regexes
  (`%Y` = 4 digits, `%m`/`%d` = 1-2 digits with the source alternations,
  `%b` = case-insensitive month abbreviation, whitespace = `\s+`), the
  post-match "unconverted data" check and the `datetime` constructor's
  calendar validation; `strftime("%Y-%m-%d")` is modelled with glibc's
  behaviour (the platform the service targets): `%m`/`%d` zero-padded to
  two digits, `%Y` printed as a plain decimal, NOT zero-padded for years
  below 1000.
* `datetime.now()` is passed explicitly as a `PyDateTime` parameter.
-/

/-- ASCII whitespace as stripped by `str.strip` and matched by `\s`. -/
def isPyWs (c : Char) : Bool :=
  c.toNat == 32 || c.toNat == 9 || c.toNat == 10 || c.toNat == 13 ||
  c.toNat == 11 || c.toNat == 12

/-- ASCII decimal digit, as matched by `\d` in the source's patterns. -/
def isDigitC (c : Char) : Bool :=
  48 ≤ c.toNat && c.toNat ≤ 57

/-- Numeric value of an ASCII digit character. -/
def digitVal (c : Char) : Nat := c.toNat - 48

/-- ASCII letter, as matched by `[A-Za-z]`. -/
def isAsciiLetter (c : Char) : Bool :=
  (65 ≤ c.toNat && c.toNat ≤ 90) || (97 ≤ c.toNat && c.toNat ≤ 122)

/-- The apostrophe character (written numerically). -/
def aposChar : Char := Char.ofNat 39

/-- The opening-brace character (written numerically). -/
def obraceChar : Char := Char.ofNat 123

/-- The closing-brace character (written numerically). -/
def cbraceChar : Char := Char.ofNat 125

/-- ASCII lower-casing of one character, models `str.lower` per character. -/
def lowerChar (c : Char) : Char :=
  if 65 ≤ c.toNat && c.toNat ≤ 90 then Char.ofNat (c.toNat + 32) else c

/-- Models Python `str.lower()` (ASCII range). -/
def pyLower (s : String) : String :=
  String.mk (s.data.map lowerChar)

/-- Drop leading characters satisfying `p`. -/
def dropLeading (p : Char → Bool) : List Char → List Char
  | [] => []
  | c :: cs => if p c then dropLeading p cs else c :: cs

/-- Models Python `str.strip()` (ASCII whitespace subset). -/
def pyStrip (s : String) : String :=
  String.mk (((dropLeading isPyWs s.data).reverse |> dropLeading isPyWs).reverse)

/-- Whether `pre` is a prefix of `l`, by character. -/
def startsWithL : List Char → List Char → Bool
  | [], _ => true
  | _ :: _, [] => false
  | p :: ps, c :: cs => p == c && startsWithL ps cs

/-- One pass of Python `str.replace(old, new)` on character lists; `fuel`
bounds the recursion (left-to-right, non-overlapping occurrences). -/
def replaceAux (old new : List Char) : Nat → List Char → List Char
  | 0, s => s
  | _ + 1, [] => []
  | fuel + 1, c :: cs =>
    if startsWithL old (c :: cs) then
      new ++ replaceAux old new fuel (List.drop old.length (c :: cs))
    else
      c :: replaceAux old new fuel cs

/-- Models Python `str.replace(old, new)` for a non-empty `old`. -/
def pyReplace (s old new : String) : String :=
  String.mk (replaceAux old.data new.data (s.data.length + 1) s.data)

/-- Whether `needle` occurs as a contiguous substring of `hay`, models the
Python `in` operator on strings with `fuel` bounding recursion. -/
def containsSubAux (needle : List Char) : Nat → List Char → Bool
  | 0, hay => startsWithL needle hay
  | fuel + 1, hay =>
    startsWithL needle hay ||
      match hay with
      | [] => false
      | _ :: rest => containsSubAux needle fuel rest

/-- Models `needle in hay` for Python strings. -/
def containsSub (hay needle : String) : Bool :=
  containsSubAux needle.data hay.data.length hay.data

/-- A JSON number as decoded by `json.loads`: integers are kept exactly;
fractional/exponent/constant forms keep their source lexeme. -/
inductive JNum where
  | int (n : Int)
  | float (lexeme : String)

/-- A decoded JSON value (the result type of `json.loads`).  Objects are
association lists with unique keys in insertion order, as Python dicts. -/
inductive Json where
  | null
  | bool (b : Bool)
  | num (n : JNum)
  | str (s : String)
  | arr (xs : List Json)
  | obj (kvs : List (String × Json))

/-- Key lookup in a decoded JSON object (Python `dict[key]` presence). -/
def lookupObj (kvs : List (String × Json)) (k : String) : Option Json :=
  match kvs with
  | [] => none
  | (k', v) :: rest => if k' = k then some v else lookupObj rest k

/-- Models Python `dict.get(k, default)`. -/
def objGet (kvs : List (String × Json)) (k : String) (dflt : Json) : Json :=
  match lookupObj kvs k with
  | some v => v
  | none => dflt

/-- Insert a key into a decoded object the way Python dicts do during JSON
decoding: an existing key keeps its position and gets the new value, a new
key is appended. -/
def objInsert (kvs : List (String × Json)) (k : String) (v : Json) :
    List (String × Json) :=
  match kvs with
  | [] => [(k, v)]
  | (k', v') :: rest =>
    if k' = k then (k', v) :: rest else (k', v') :: objInsert rest k v

/-- JSON inter-token whitespace accepted by `json.loads`. -/
def isJsonWs (c : Char) : Bool :=
  c.toNat == 32 || c.toNat == 9 || c.toNat == 10 || c.toNat == 13

/-- Skip JSON whitespace. -/
def skipWs : List Char → List Char
  | [] => []
  | c :: cs => if isJsonWs c then skipWs cs else c :: cs

/-- Hexadecimal digit value, for `\uXXXX` escapes. -/
def hexVal (c : Char) : Option Nat :=
  if 48 ≤ c.toNat && c.toNat ≤ 57 then some (c.toNat - 48)
  else if 97 ≤ c.toNat && c.toNat ≤ 102 then some (c.toNat - 87)
  else if 65 ≤ c.toNat && c.toNat ≤ 70 then some (c.toNat - 55)
  else none

/-- Parse the body of a JSON string after the opening quote, in the strict
mode used by `json.loads`: raw control characters are rejected, the JSON
escapes are decoded, and surrogate pairs in `\uXXXX` escapes are combined. -/
def parseStrBody : Nat → List Char → Option (List Char × List Char)
  | 0, _ => none
  | _ + 1, [] => none
  | fuel + 1, c :: cs =>
    if c == '"' then
      some ([], cs)
    else if c == '\\' then
      match cs with
      | [] => none
      | e :: cs' =>
        if e == '"' || e == '\\' || e == '/' then
          match parseStrBody fuel cs' with
          | some (body, rest) => some (e :: body, rest)
          | none => none
        else if e == 'b' || e == 'f' || e == 'n' || e == 'r' || e == 't' then
          let d : Char :=
            if e == 'b' then Char.ofNat 8
            else if e == 'f' then Char.ofNat 12
            else if e == 'n' then Char.ofNat 10
            else if e == 'r' then Char.ofNat 13
            else Char.ofNat 9
          match parseStrBody fuel cs' with
          | some (body, rest) => some (d :: body, rest)
          | none => none
        else if e == 'u' then
          match cs' with
          | h1 :: h2 :: h3 :: h4 :: cs'' =>
            match hexVal h1, hexVal h2, hexVal h3, hexVal h4 with
            | some a, some b, some c1, some d1 =>
              let n := ((a * 16 + b) * 16 + c1) * 16 + d1
              if 55296 ≤ n && n ≤ 56319 then
                match cs'' with
                | '\\' :: 'u' :: g1 :: g2 :: g3 :: g4 :: cs''' =>
                  match hexVal g1, hexVal g2, hexVal g3, hexVal g4 with
                  | some a2, some b2, some c2, some d2 =>
                    let m := ((a2 * 16 + b2) * 16 + c2) * 16 + d2
                    if 56320 ≤ m && m ≤ 57343 then
                      let cp := 65536 + (n - 55296) * 1024 + (m - 56320)
                      match parseStrBody fuel cs''' with
                      | some (body, rest) => some (Char.ofNat cp :: body, rest)
                      | none => none
                    else
                      match parseStrBody fuel cs'' with
                      | some (body, rest) => some (Char.ofNat n :: body, rest)
                      | none => none
                  | _, _, _, _ =>
                    match parseStrBody fuel cs'' with
                    | some (body, rest) => some (Char.ofNat n :: body, rest)
                    | none => none
                | _ =>
                  match parseStrBody fuel cs'' with
                  | some (body, rest) => some (Char.ofNat n :: body, rest)
                  | none => none
              else
                match parseStrBody fuel cs'' with
                | some (body, rest) => some (Char.ofNat n :: body, rest)
                | none => none
            | _, _, _, _ => none
          | _ => none
        else none
    else if c.toNat < 32 then none
    else
      match parseStrBody fuel cs with
      | some (body, rest) => some (c :: body, rest)
      | none => none

/-- Take a non-empty run of ASCII digits. -/
def takeDigits : List Char → (List Char × List Char)
  | [] => ([], [])
  | c :: cs =>
    if isDigitC c then
      let (ds, rest) := takeDigits cs
      (c :: ds, rest)
    else ([], c :: cs)

/-- Decimal value of a digit list. -/
def digitsToNat (ds : List Char) : Nat :=
  ds.foldl (fun acc c => acc * 10 + digitVal c) 0

/-- Parse a JSON number (or `NaN`/`Infinity`/`-Infinity`, which
`json.loads` accepts by default).  Returns the decoded number and the
remaining input. -/
def parseNum (cs : List Char) : Option (JNum × List Char) :=
  match cs with
  | 'N' :: 'a' :: 'N' :: rest => some (JNum.float ("nan"), rest)
  | 'I' :: 'n' :: 'f' :: 'i' :: 'n' :: 'i' :: 't' :: 'y' :: rest =>
    some (JNum.float ("inf"), rest)
  | '-' :: 'I' :: 'n' :: 'f' :: 'i' :: 'n' :: 'i' :: 't' :: 'y' :: rest =>
    some (JNum.float ("-inf"), rest)
  | _ =>
    let (neg, cs1) :=
      match cs with
      | '-' :: rest => (true, rest)
      | _ => (false, cs)
    match cs1 with
    | [] => none
    | c :: _ =>
      if !isDigitC c then none
      else
        let (intPart, cs2) :=
          if c == '0' then ([c], cs1.tail)
          else takeDigits cs1
        let (fracPart, cs3) :=
          match cs2 with
          | '.' :: d :: rest =>
            if isDigitC d then
              let (ds, r) := takeDigits (d :: rest)
              ('.' :: ds, r)
            else ([], cs2)
          | _ => ([], cs2)
        let (expPart, cs4) :=
          match cs3 with
          | e :: rest =>
            if e == 'e' || e == 'E' then
              match rest with
              | s :: d :: r2 =>
                if (s == '+' || s == '-') && isDigitC d then
                  let (ds, r3) := takeDigits (d :: r2)
                  (e :: s :: ds, r3)
                else if isDigitC s then
                  let (ds, r3) := takeDigits (s :: d :: r2)
                  (e :: ds, r3)
                else ([], cs3)
              | [s] =>
                if isDigitC s then ([e, s], []) else ([], cs3)
              | [] => ([], cs3)
            else ([], cs3)
          | [] => ([], cs3)
        if fracPart.isEmpty && expPart.isEmpty then
          let v : Int := Int.ofNat (digitsToNat intPart)
          some (JNum.int (if neg then -v else v), cs4)
        else
          let lex := (if neg then ['-'] else []) ++ intPart ++ fracPart ++ expPart
          some (JNum.float (String.mk lex), cs4)

mutual

/-- Recursive JSON value/array/object parsing with explicit fuel, modelling
`json.loads`'s grammar (strict mode, no trailing commas). -/
def parseVal : Nat → List Char → Option (Json × List Char)
  | 0, _ => none
  | fuel + 1, cs =>
    match cs with
    | [] => none
    | c :: rest =>
      if c == 'n' then
        match rest with
        | 'u' :: 'l' :: 'l' :: r => some (Json.null, r)
        | _ => none
      else if c == 't' then
        match rest with
        | 'r' :: 'u' :: 'e' :: r => some (Json.bool true, r)
        | _ => none
      else if c == 'f' then
        match rest with
        | 'a' :: 'l' :: 's' :: 'e' :: r => some (Json.bool false, r)
        | _ => none
      else if c == '"' then
        match parseStrBody (rest.length + 1) rest with
        | some (body, r) => some (Json.str (String.mk body), r)
        | none => none
      else if c == '[' then
        match skipWs rest with
        | ']' :: r => some (Json.arr [], r)
        | cs1 => parseArrItems fuel cs1 []
      else if c == obraceChar then
        match skipWs rest with
        | c2 :: r =>
          if c2 == cbraceChar then some (Json.obj [], r)
          else parseObjItems fuel (c2 :: r) []
        | [] => none
      else
        parseNum cs |>.map (fun (n, r) => (Json.num n, r))

/-- Parse the comma-separated items of a JSON array (after the first item
position has been reached). -/
def parseArrItems : Nat → List Char → List Json → Option (Json × List Char)
  | 0, _, _ => none
  | fuel + 1, cs, acc =>
    match parseVal fuel cs with
    | none => none
    | some (v, rest) =>
      match skipWs rest with
      | ',' :: r => parseArrItems fuel (skipWs r) (v :: acc)
      | ']' :: r => some (Json.arr (acc.reverse ++ [v]), r)
      | _ => none

/-- Parse the comma-separated members of a JSON object (after the first
member position has been reached); duplicate keys follow dict semantics. -/
def parseObjItems : Nat → List Char → List (String × Json) →
    Option (Json × List Char)
  | 0, _, _ => none
  | fuel + 1, cs, acc =>
    match cs with
    | c :: rest =>
      if c == '"' then
        match parseStrBody (rest.length + 1) rest with
        | none => none
        | some (keyChars, afterKey) =>
          match skipWs afterKey with
          | ':' :: afterColon =>
            match parseVal fuel (skipWs afterColon) with
            | none => none
            | some (v, afterVal) =>
              let acc' := objInsert acc (String.mk keyChars) v
              match skipWs afterVal with
              | ',' :: r =>
                match skipWs r with
                | c2 :: r2 => parseObjItems fuel (c2 :: r2) acc'
                | [] => none
              | c2 :: r =>
                if c2 == cbraceChar then some (Json.obj acc', r) else none
              | [] => none
          | _ => none
      else none
    | [] => none

end

/-- Models `json.loads`: decode the whole string as one JSON value, else
fail (the Python function raises `json.JSONDecodeError`).  The fuel bound
`2 * length + 2` dominates the recursion depth of any input. -/
def jsonParse (s : String) : Option Json :=
  match parseVal (2 * s.data.length + 2) (skipWs s.data) with
  | some (v, rest) => if skipWs rest = [] then some v else none
  | none => none

/-- A calendar date as produced by `datetime.strptime(value, "%Y-%m-%d")`
(the time-of-day of a parsed date is midnight). -/
structure PyDate where
  year : Nat
  month : Nat
  day : Nat
deriving DecidableEq

/-- A point in time as produced by `datetime.now()`: a calendar date plus
an abstract time-of-day (microseconds since midnight). -/
structure PyDateTime where
  date : PyDate
  tod : Nat
deriving DecidableEq

/-- Strict order on dates (lexicographic year, month, day). -/
def dateLt (a b : PyDate) : Bool :=
  a.year < b.year ||
    (a.year == b.year &&
      (a.month < b.month || (a.month == b.month && a.day < b.day)))

/-- Strict order on datetimes, models `datetime.__lt__`. -/
def dtLt (a b : PyDateTime) : Bool :=
  dateLt a.date b.date || (a.date == b.date && a.tod < b.tod)

/-- A parsed date viewed as a datetime at midnight. -/
def atMidnight (d : PyDate) : PyDateTime := ⟨d, 0⟩

/-- Gregorian leap-year rule, as used by `datetime`. -/
def isLeap (y : Nat) : Bool :=
  y % 4 == 0 && (y % 100 != 0 || y % 400 == 0)

/-- Days in a month, as validated by the `datetime` constructor. -/
def daysInMonth (y m : Nat) : Nat :=
  if m == 2 then (if isLeap y then 29 else 28)
  else if m == 4 || m == 6 || m == 9 || m == 11 then 30
  else 31

/-- Models the `datetime(year, month, day)` constructor validation invoked
by `strptime`: in-range year and month, day within the month; on failure
it returns the `ValueError` message `strptime` would propagate. -/
def mkDateE (y m d : Nat) : Except String PyDate :=
  if y < 1 || 9999 < y then
    Except.error ("year " ++ toString y ++ " is out of range")
  else if m < 1 || 12 < m then
    Except.error ("month must be in 1..12")
  else if d < 1 || daysInMonth y m < d then
    Except.error ("day is out of range for month")
  else Except.ok ⟨y, m, d⟩

/-- The `datetime` constructor with the message discarded (the per-format
loop of `convert_date_to_standard_format` only needs success/failure). -/
def mkDate? (y m d : Nat) : Option PyDate := (mkDateE y m d).toOption

/-- Token of `%d` or `%m` taking two digits: the two-digit alternatives of
the `strptime` regexes (`3[01]|[12]\d|0[1-9]` resp. `1[0-2]|0[1-9]`) both
amount to two-digit strings whose value lies in the token's range with no
`00`. -/
def twoDigitTok (lo hi : Nat) : List Char → Option (Nat × List Char)
  | c1 :: c2 :: rest =>
    if isDigitC c1 && isDigitC c2 then
      let v := digitVal c1 * 10 + digitVal c2
      if lo ≤ v && v ≤ hi && 1 ≤ v then some (v, rest) else none
    else none
  | _ => none

/-- Token of `%d` or `%m` taking one digit (`[1-9]`). -/
def oneDigitTok : List Char → Option (Nat × List Char)
  | c :: rest =>
    if isDigitC c && digitVal c ≥ 1 then some (digitVal c, rest) else none
  | _ => none

/-- Token of `%Y`: exactly four digits (the `strptime` regex `\d\d\d\d`). -/
def yearTok : List Char → Option (Nat × List Char)
  | c1 :: c2 :: c3 :: c4 :: rest =>
    if isDigitC c1 && isDigitC c2 && isDigitC c3 && isDigitC c4 then
      some (((digitVal c1 * 10 + digitVal c2) * 10 + digitVal c3) * 10 +
        digitVal c4, rest)
    else none
  | _ => none

/-- Format-string whitespace: `strptime` turns whitespace in the format
into `\s+`, so at least one whitespace character must be consumed. -/
def wsTok : List Char → Option (List Char)
  | c :: rest =>
    if isPyWs c then some (dropLeading isPyWs rest) else none
  | _ => none

/-- Case-insensitive month abbreviation for `%b` (C locale), consuming
exactly three characters. -/
def monthAbbrev : List Char → Option (Nat × List Char)
  | a :: b :: c :: rest =>
    let l := [lowerChar a, lowerChar b, lowerChar c]
    if l = ['j', 'a', 'n'] then some (1, rest)
    else if l = ['f', 'e', 'b'] then some (2, rest)
    else if l = ['m', 'a', 'r'] then some (3, rest)
    else if l = ['a', 'p', 'r'] then some (4, rest)
    else if l = ['m', 'a', 'y'] then some (5, rest)
    else if l = ['j', 'u', 'n'] then some (6, rest)
    else if l = ['j', 'u', 'l'] then some (7, rest)
    else if l = ['a', 'u', 'g'] then some (8, rest)
    else if l = ['s', 'e', 'p'] then some (9, rest)
    else if l = ['o', 'c', 't'] then some (10, rest)
    else if l = ['n', 'o', 'v'] then some (11, rest)
    else if l = ['d', 'e', 'c'] then some (12, rest)
    else none
  | _ => none

/-- Expect a specific literal character. -/
def litTok (c : Char) : List Char → Option (List Char)
  | c' :: rest => if c' == c then some rest else none
  | _ => none

/-- Regex alternation for `%d`/`%m`: the two-digit alternatives are
preferred; if the rest of the pattern (the `tail` continuation, which
stops at the end of the regex, before the post-match length check)
fails, the engine backtracks to the one-digit alternative. -/
def numTokThen {α : Type} (lo hi : Nat) (cs : List Char)
    (tail : Nat → List Char → Option α) : Option α :=
  match twoDigitTok lo hi cs with
  | some (v, cs') =>
    match tail v cs' with
    | some r => some r
    | none =>
      match oneDigitTok cs with
      | some (v1, cs1) => tail v1 cs1
      | none => none
  | none =>
    match oneDigitTok cs with
    | some (v1, cs1) => tail v1 cs1
    | none => none

/-- Apply `strptime`'s post-match check and constructor: the regex match
must have consumed the whole input, then `datetime` validates. -/
def finishDate (r : Option (Nat × Nat × Nat × List Char)) : Option PyDate :=
  match r with
  | some (y, m, d, rest) => if rest.isEmpty then mkDate? y m d else none
  | none => none

/-- Models `datetime.strptime(s, "%d %b %Y")` as a success/failure parse
(`convert_date_to_standard_format` discards the error message). -/
def strpDayMonY (s : String) : Option PyDate :=
  finishDate <| numTokThen 1 31 s.data fun d cs =>
    match wsTok cs with
    | none => none
    | some cs1 =>
      match monthAbbrev cs1 with
      | none => none
      | some (m, cs2) =>
        match wsTok cs2 with
        | none => none
        | some cs3 =>
          match yearTok cs3 with
          | none => none
          | some (y, cs4) => some (y, m, d, cs4)

/-- Models `datetime.strptime(s, "%b %d %Y")`. -/
def strpMonDayY (s : String) : Option PyDate :=
  finishDate <|
    match monthAbbrev s.data with
    | none => none
    | some (m, cs1) =>
      match wsTok cs1 with
      | none => none
      | some cs2 =>
        numTokThen 1 31 cs2 fun d cs3 =>
          match wsTok cs3 with
          | none => none
          | some cs4 =>
            match yearTok cs4 with
            | none => none
            | some (y, cs5) => some (y, m, d, cs5)

/-- The regex-match part of `datetime.strptime(s, "%Y-%m-%d")`: year,
dash, month (two digits preferred), dash, day; returns the matched
values and the unconsumed input. -/
def isoTokens (cs : List Char) : Option (Nat × Nat × Nat × List Char) :=
  match yearTok cs with
  | none => none
  | some (y, cs1) =>
    match litTok '-' cs1 with
    | none => none
    | some cs2 =>
      numTokThen 1 12 cs2 fun m cs3 =>
        match litTok '-' cs3 with
        | none => none
        | some cs4 =>
          match twoDigitTok 1 31 cs4 with
          | some (d, cs5) => some (y, m, d, cs5)
          | none =>
            match oneDigitTok cs4 with
            | some (d, cs5) => some (y, m, d, cs5)
            | none => none

/-- Models `datetime.strptime(s, "%Y-%m-%d")` with the `ValueError`
message it raises on failure (this is the only `strptime` call whose
message can surface, through `validate_field_value`). -/
def strptimeIso (s : String) : Except String PyDate :=
  match isoTokens s.data with
  | none =>
    Except.error ("time data " ++ String.mk [aposChar] ++ s ++
      String.mk [aposChar] ++ " does not match format " ++
      String.mk [aposChar] ++ "%Y-%m-%d" ++ String.mk [aposChar])
  | some (y, m, d, rest) =>
    if rest.isEmpty then mkDateE y m d
    else Except.error ("unconverted data remains: " ++ String.mk rest)

/-- The ISO format as a success/failure parse, for the format loop. -/
def strpIso (s : String) : Option PyDate := (strptimeIso s).toOption

/-- Models `datetime.strptime(s, "%m/%d/%Y")`. -/
def strpUsSlash (s : String) : Option PyDate :=
  finishDate <| numTokThen 1 12 s.data fun m cs1 =>
    match litTok '/' cs1 with
    | none => none
    | some cs2 =>
      numTokThen 1 31 cs2 fun d cs3 =>
        match litTok '/' cs3 with
        | none => none
        | some cs4 =>
          match yearTok cs4 with
          | none => none
          | some (y, cs5) => some (y, m, d, cs5)

/-- Models `datetime.strptime(s, "%d/%m/%Y")`. -/
def strpEuSlash (s : String) : Option PyDate :=
  finishDate <| numTokThen 1 31 s.data fun d cs1 =>
    match litTok '/' cs1 with
    | none => none
    | some cs2 =>
      numTokThen 1 12 cs2 fun m cs3 =>
        match litTok '/' cs3 with
        | none => none
        | some cs4 =>
          match yearTok cs4 with
          | none => none
          | some (y, cs5) => some (y, m, d, cs5)

/-- The ordered format list of `convert_date_to_standard_format`:
`"%d %b %Y"`, `"%b %d %Y"`, `"%Y-%m-%d"`, `"%m/%d/%Y"`, `"%d/%m/%Y"`. -/
def dateFormats : List (String → Option PyDate) :=
  [strpDayMonY, strpMonDayY, strpIso, strpUsSlash, strpEuSlash]

/-- The source's `for fmt in [...]` loop: first successful parse wins. -/
def tryFormats : List (String → Option PyDate) → String → Option PyDate
  | [], _ => none
  | f :: fs, s =>
    match f s with
    | some d => some d
    | none => tryFormats fs s

/-- Decimal digit character for a value below ten. -/
def digitChar10 (n : Nat) : Char := Char.ofNat (48 + n)

/-- The `%Y` directive as printed by glibc `strftime`: a plain decimal
number, not zero-padded (years are between 1 and 9999 here). -/
def yearChars (y : Nat) : List Char :=
  if y < 10 then [digitChar10 y]
  else if y < 100 then [digitChar10 (y / 10), digitChar10 (y % 10)]
  else if y < 1000 then
    [digitChar10 (y / 100), digitChar10 (y / 10 % 10), digitChar10 (y % 10)]
  else
    [digitChar10 (y / 1000 % 10), digitChar10 (y / 100 % 10),
     digitChar10 (y / 10 % 10), digitChar10 (y % 10)]

/-- Models `datetime.strftime("%Y-%m-%d")` on the target platform. -/
def fmtIso (d : PyDate) : String :=
  String.mk
    (yearChars d.year ++
     ['-', digitChar10 (d.month / 10 % 10), digitChar10 (d.month % 10), '-',
      digitChar10 (d.day / 10 % 10), digitChar10 (d.day % 10)])

/-- Models `convert_date_to_standard_format`: try the fixed ordered list
of formats, reformat the first success to `YYYY-MM-DD`, and fall back to
the input itself when no format matches (or on any error). -/
def convert_date_to_standard_format (s : String) : String :=
  match tryFormats dateFormats s with
  | some d => fmtIso d
  | none => s

/-- Ten characters in `\d{4}-\d{2}-\d{2}` shape. -/
def isoShapeL (cs : List Char) : Bool :=
  match cs with
  | [a, b, c, d, e, f, g, h, i, j] =>
    isDigitC a && isDigitC b && isDigitC c && isDigitC d && e == '-' &&
    isDigitC f && isDigitC g && h == '-' && isDigitC i && isDigitC j
  | _ => false

/-- Models `re.match(r"^\d{4}-\d{2}-\d{2}$", value)` as a boolean: Python's
`$` also matches just before one trailing newline. -/
def pyMatchIso (s : String) : Bool :=
  isoShapeL s.data ||
    (match s.data with
     | [a, b, c, d, e, f, g, h, i, j, k] =>
       isoShapeL [a, b, c, d, e, f, g, h, i, j] && k == '\n'
     | _ => false)

/-- A character of the class `[A-Za-z\s\-']`. -/
def isNameChar (c : Char) : Bool :=
  isAsciiLetter c || isPyWs c || c == '-' || c == aposChar

/-- Models `re.match(r"^[A-Za-z\s\-']+$", value)` as a boolean (here `$`'s
trailing-newline allowance is absorbed by `\s` inside the class). -/
def pyMatchName (s : String) : Bool :=
  !s.data.isEmpty && s.data.all isNameChar

/-- Outcome of evaluating one entry of `FIELD_VALIDATIONS`: either the
lambda's boolean, or the `ValueError` it raised (its `str(e)` text). -/
def EvalOutcome := Except String Bool

/-- The `date_of_birth` lambda: ISO pattern and strictly before now. -/
def dobRule (now : PyDateTime) (value : String) : Except String Bool :=
  if !pyMatchIso value then Except.ok false
  else
    match strptimeIso value with
    | Except.error e => Except.error e
    | Except.ok d => Except.ok (dtLt (atMidnight d) now)

/-- The `issue_date` lambda: ISO pattern only. -/
def issueRule (_now : PyDateTime) (value : String) : Except String Bool :=
  Except.ok (pyMatchIso value)

/-- The `expiration_date` lambda: ISO pattern and strictly after now. -/
def expRule (now : PyDateTime) (value : String) : Except String Bool :=
  if !pyMatchIso value then Except.ok false
  else
    match strptimeIso value with
    | Except.error e => Except.error e
    | Except.ok d => Except.ok (dtLt now (atMidnight d))

/-- The `full_name` and `country` lambda: name pattern and trimmed length
at least two. -/
def nameRule (_now : PyDateTime) (value : String) : Except String Bool :=
  Except.ok (pyMatchName value && 2 ≤ (pyStrip value).length)

/-- The keys registered in `FIELD_VALIDATIONS`. -/
def validatedKeys : List String :=
  [("date_of_birth"), ("issue_date"), ("expiration_date"), ("full_name"),
   ("country")]

/-- Lookup in `FIELD_VALIDATIONS`: the `"validate"` lambda of a key. -/
def fieldRule (key : String) :
    Option (PyDateTime → String → Except String Bool) :=
  if key = ("date_of_birth") then some dobRule
  else if key = ("issue_date") then some issueRule
  else if key = ("expiration_date") then some expRule
  else if key = ("full_name") then some nameRule
  else if key = ("country") then some nameRule
  else none

/-- The date-specific rejection message of `validate_field_value`. -/
def dateMsg : String := "Invalid date format. Must be YYYY-MM-DD"

/-- Models `validate_field_value(key, value)`: keys without a rule pass;
a rule returning `False` yields the date-specific or generic message; a
`ValueError` from the rule is caught and its text returned. -/
def validate_field_value (now : PyDateTime) (key value : String) :
    Bool × Option String :=
  match fieldRule key with
  | none => (true, none)
  | some rule =>
    match rule now value with
    | Except.ok true => (true, none)
    | Except.ok false =>
      if containsSub key ("date") then (false, some dateMsg)
      else (false, some (("Invalid format for ") ++ key))
    | Except.error e => (false, some e)

/-- The closed label set `DOCUMENT_TYPES`. -/
def DOCUMENT_TYPES : List String :=
  [("passport"), ("driver_license"), ("ead_card")]

/-- The reply handling of `process_image_with_gemini`: trim, lower-case,
and fall back to `"unknown"` outside the closed set. -/
def classifyReply (raw : String) : String :=
  let documentType := pyLower (pyStrip raw)
  if DOCUMENT_TYPES.contains documentType then documentType
  else ("unknown")

/-- Models the reply handling of `extract_fields_with_gemini`: return the
decoded JSON, or wrap the unparseable text as `{"raw_output": text}`. -/
def extract_fields_reply (text : String) : Json :=
  match jsonParse text with
  | some parsed => parsed
  | none => Json.obj [(("raw_output"), Json.str text)]

/-- Python `repr` of a string (single-quoted, basic escapes; CPython also
escapes other non-printables, which no property here exercises). -/
def pyReprStrChars (cs : List Char) : List Char :=
  match cs with
  | [] => []
  | c :: rest =>
    if c == '\\' then '\\' :: '\\' :: pyReprStrChars rest
    else if c == aposChar then '\\' :: aposChar :: pyReprStrChars rest
    else if c.toNat == 10 then '\\' :: 'n' :: pyReprStrChars rest
    else if c.toNat == 13 then '\\' :: 'r' :: pyReprStrChars rest
    else if c.toNat == 9 then '\\' :: 't' :: pyReprStrChars rest
    else c :: pyReprStrChars rest

/-- Python `repr` of a string with its quotes. -/
def pyReprStr (s : String) : String :=
  String.mk (aposChar :: pyReprStrChars s.data ++ [aposChar])

mutual

/-- Python `repr` of a JSON-decoded value, used by `str` on containers. -/
def pyRepr : Json → String
  | Json.null => ("None")
  | Json.bool true => ("True")
  | Json.bool false => ("False")
  | Json.num (JNum.int n) => toString n
  | Json.num (JNum.float lex) => lex
  | Json.str s => pyReprStr s
  | Json.arr xs => ("[") ++ String.intercalate (", ") (pyReprList xs) ++ ("]")
  | Json.obj kvs =>
    String.mk [obraceChar] ++ String.intercalate (", ") (pyReprObj kvs) ++
      String.mk [cbraceChar]

/-- `repr` of the items of a list. -/
def pyReprList : List Json → List String
  | [] => []
  | x :: xs => pyRepr x :: pyReprList xs

/-- `repr` of the members of a dict. -/
def pyReprObj : List (String × Json) → List String
  | [] => []
  | (k, v) :: rest => (pyReprStr k ++ (": ") ++ pyRepr v) :: pyReprObj rest

end

/-- Models Python `str(value)` on a JSON-decoded value (strings unchanged,
other values via their `str`/`repr`). -/
def pyStr (v : Json) : String :=
  match v with
  | Json.str s => s
  | other => pyRepr other

/-- Python truthiness of a JSON-decoded value (`if raw_json_output`,
`if not field_data`, `if field_data[field]`). -/
def truthy (v : Json) : Bool :=
  match v with
  | Json.null => false
  | Json.bool b => b
  | Json.num (JNum.int n) => n ≠ 0
  | Json.num (JNum.float lex) =>
    -- a float is falsy exactly when its value is zero: every digit of the
    -- mantissa (integer and fraction part, before any exponent) is 0
    !(lex.data.takeWhile (fun c => c != 'e' && c != 'E')).all
      (fun c => !isDigitC c || c == '0')
  | Json.str s => !s.data.isEmpty
  | Json.arr xs => !xs.isEmpty
  | Json.obj kvs => !kvs.isEmpty

/-- Whether a value is JSON null (`value is not None` in the persist loop). -/
def isNull (v : Json) : Bool :=
  match v with
  | Json.null => true
  | _ => false

/-- Whether a value is a decoded JSON string. -/
def isStrVal (v : Json) : Bool :=
  match v with
  | Json.str _ => true
  | _ => false

/-- The fence-stripping of `classify_document`:
`raw.replace("```json", "").replace("```", "").strip()`. -/
def cleanedText (raw : String) : String :=
  pyStrip (pyReplace (pyReplace raw ("```json") ("")) ("```") (""))

/-- The recovery branch of `classify_document` for a string
`raw_output`: fence-strip, re-decode, unwrap `document_content`; any
failure inside the `try` (decode error, or `.get` on a non-dict) is
caught and yields an empty field map. -/
def rawChain (raw : String) : Json :=
  match jsonParse (cleanedText raw) with
  | some (Json.obj kvs) => objGet kvs ("document_content") (Json.obj kvs)
  | some _ => Json.obj []
  | none => Json.obj []

/-- The parse stage of `classify_document` (its lines 224-237) applied to
the value returned by `extract_fields_with_gemini`.  Result: the
`raw_json_output` variable and the `field_data` value, or `none` when the
stage raises an uncaught exception (`"raw_output" in fields` on a
non-container, or indexing/`.get` on a non-dict, each a `TypeError` or
`AttributeError` that only the endpoint-level handler turns into a 500
response). -/
def classify_parse (fields : Json) : Option (Json × Json) :=
  match fields with
  | Json.obj kvs =>
    match lookupObj kvs ("raw_output") with
    | some (Json.str raw) => some (Json.str raw, rawChain raw)
    | some rv =>
      -- `rv.replace` on a non-string raises AttributeError inside the
      -- `try`, which the `except Exception` arm turns into `{}`;
      -- `raw_json_output` keeps the non-string value
      some (rv, Json.obj [])
    | none => some (Json.str (""), objGet kvs ("document_content") (Json.obj kvs))
  | _ => none

/-- The date-bearing keys normalized by the orchestrator. -/
def dateFields : List String :=
  [("date_of_birth"), ("issue_date"), ("expiration_date"),
   ("card_expires_date")]

/-- Update one key of a field map in place (Python `dict[k] = v`). -/
def dictSet (kvs : List (String × Json)) (k : String) (v : Json) :
    List (String × Json) :=
  match kvs with
  | [] => []
  | (k', v') :: rest =>
    if k' = k then (k', v) :: rest else (k', v') :: dictSet rest k v

/-- One step of the date-normalization loop: if the key is present with a
truthy value, convert it (a non-string value makes `strptime` raise a
`TypeError`, which `convert_date_to_standard_format`'s outer handler
returns unchanged). -/
def normalizeKey (kvs : List (String × Json)) (k : String) :
    List (String × Json) :=
  match lookupObj kvs k with
  | some v =>
    if truthy v then
      match v with
      | Json.str s => dictSet kvs k (Json.str (convert_date_to_standard_format s))
      | _ => dictSet kvs k v
    else kvs
  | none => kvs

/-- The `for field in date_fields` loop of `classify_document`. -/
def normalizeDates (kvs : List (String × Json)) : List (String × Json) :=
  dateFields.foldl normalizeKey kvs

/-- The `for key, value in field_data.items()` persistence loop of
`classify_document`: one stringified row per non-null field. -/
def loopRows (kvs : List (String × Json)) : List (String × Json) :=
  (kvs.filter (fun kv => !isNull kv.2)).map
    (fun kv => (kv.1, Json.str (pyStr kv.2)))

/-- The persistence step of `classify_document`: the per-field loop, then
the raw-output fallback row when the field map is empty and
`raw_json_output` is truthy.  Rows carry the value exactly as handed to
the `Field` constructor. -/
def persistRows (rawV : Json) (kvs : List (String × Json)) :
    List (String × Json) :=
  loopRows kvs ++
    (if truthy rawV && kvs.isEmpty then [(("raw_output"), rawV)] else [])

/-- The whole post-extraction path of `classify_document` on a reply
text: parse stage, date normalization, persistence; `none` models an
uncaught exception (HTTP 500, nothing persisted). -/
def pipelineRows (text : String) : Option (List (String × Json)) :=
  match classify_parse (extract_fields_reply text) with
  | none => none
  | some (rawV, fieldData) =>
    match fieldData with
    | Json.obj kvs => some (persistRows rawV (normalizeDates kvs))
    | _ => none

/-- A row of the `fields` table (`models.Field`): composite primary key
`(document_id, key)`, a value and the corrected-flag. -/
structure FieldRec where
  document_id : Int
  key : String
  value : String
  is_corrected : Int
deriving DecidableEq

/-- `db.query(Field).filter_by(document_id=..., key=...).first()`. -/
def findField (db : List FieldRec) (docId : Int) (key : String) :
    Option FieldRec :=
  db.find? (fun f => f.document_id == docId && f.key == key)

/-- In-place mutation of the first matching row: set the value and the
corrected-flag. -/
def updateFirst (db : List FieldRec) (docId : Int) (key value : String) :
    List FieldRec :=
  match db with
  | [] => []
  | f :: rest =>
    if f.document_id == docId && f.key == key then
      { f with value := value, is_corrected := 1 } :: rest
    else f :: updateFirst rest docId key value

/-- Models the `update_field` endpoint: validate, then upsert.  Returns
the resulting table and `some detail` when the request is rejected with
HTTP 400 (the table is returned unchanged in that case). -/
def update_field (now : PyDateTime) (db : List FieldRec) (docId : Int)
    (key value : String) : List FieldRec × Option (Option String) :=
  let v := validate_field_value now key value
  if !v.1 then (db, some v.2)
  else
    match findField db docId key with
    | some _ => (updateFirst db docId key value, none)
    | none => (db ++ [⟨docId, key, value, 1⟩], none)

/-- A digit character is one of the ten ASCII digits. -/
theorem digit_eq (c : Char) (h : isDigitC c = true) :
    c = '0' ∨ c = '1' ∨ c = '2' ∨ c = '3' ∨ c = '4' ∨
    c = '5' ∨ c = '6' ∨ c = '7' ∨ c = '8' ∨ c = '9' := by
  have hb : 48 ≤ c.toNat ∧ c.toNat ≤ 57 := by
    simpa [isDigitC, Bool.and_eq_true, decide_eq_true_eq] using h
  have he : Char.ofNat c.toNat = c := Char.ofNat_toNat c
  obtain ⟨n, h1, h2, rfl⟩ : ∃ n, 48 ≤ n ∧ n ≤ 57 ∧ c = Char.ofNat n :=
    ⟨c.toNat, hb.1, hb.2, he.symm⟩
  interval_cases n <;> simp

/-- Digits are not whitespace. -/
theorem isPyWs_digit {c : Char} (h : isDigitC c = true) : isPyWs c = false := by
  rcases digit_eq c h with rfl|rfl|rfl|rfl|rfl|rfl|rfl|rfl|rfl|rfl <;> rfl

/-- Digits are unchanged by lower-casing. -/
theorem lowerChar_digit {c : Char} (h : isDigitC c = true) :
    lowerChar c = c := by
  rcases digit_eq c h with rfl|rfl|rfl|rfl|rfl|rfl|rfl|rfl|rfl|rfl <;> rfl

/-- Digits are not the dash literal. -/
theorem beq_dash_digit {c : Char} (h : isDigitC c = true) :
    (c == '-') = false := by
  rcases digit_eq c h with rfl|rfl|rfl|rfl|rfl|rfl|rfl|rfl|rfl|rfl <;> rfl

/-- Digits are not the slash literal. -/
theorem beq_slash_digit {c : Char} (h : isDigitC c = true) :
    (c == '/') = false := by
  rcases digit_eq c h with rfl|rfl|rfl|rfl|rfl|rfl|rfl|rfl|rfl|rfl <;> rfl

/-- Value of a digit is below ten. -/
theorem digitVal_le9 {c : Char} (h : isDigitC c = true) : digitVal c ≤ 9 := by
  rcases digit_eq c h with rfl|rfl|rfl|rfl|rfl|rfl|rfl|rfl|rfl|rfl <;> decide

/-- Printing the value of a digit recovers the digit. -/
theorem digitChar10_digitVal {c : Char} (h : isDigitC c = true) :
    digitChar10 (digitVal c) = c := by
  rcases digit_eq c h with rfl|rfl|rfl|rfl|rfl|rfl|rfl|rfl|rfl|rfl <;> rfl

/-- Printing a value below ten yields a digit character. -/
theorem isDigitC_digitChar10 {k : Nat} (h : k ≤ 9) :
    isDigitC (digitChar10 k) = true := by
  interval_cases k <;> rfl

/-- A nonzero digit has value at least one. -/
theorem digitVal_pos {c : Char} (h : isDigitC c = true) (hnz : c ≠ '0') :
    1 ≤ digitVal c := by
  rcases digit_eq c h with rfl|rfl|rfl|rfl|rfl|rfl|rfl|rfl|rfl|rfl
  · exact absurd rfl hnz
  all_goals decide

/-- `%b` cannot match when the first character is a digit. -/
theorem monthAbbrev_digit {a : Char} (h : isDigitC a = true)
    (b c : Char) (rest : List Char) :
    monthAbbrev (a :: b :: c :: rest) = none := by
  rcases digit_eq a h with rfl|rfl|rfl|rfl|rfl|rfl|rfl|rfl|rfl|rfl <;>
    simp [monthAbbrev, lowerChar]

/-- C4: Classification of the model reply is a total function into the
closed label set: the trimmed, lower-cased reply is returned exactly when
it is one of `passport`, `driver_license`, `ead_card`; every other reply
(empty, mixed case with extra words, explanatory prose) maps to
`unknown`; in particular `"Passport"` yields `passport` and
`"I think it\x27s a license"` (with an apostrophe) yields `unknown`. -/
theorem C4_classification_total (s : String) :
    (DOCUMENT_TYPES.contains (pyLower (pyStrip s)) = true →
      classifyReply s = pyLower (pyStrip s)) ∧
    (DOCUMENT_TYPES.contains (pyLower (pyStrip s)) = false →
      classifyReply s = ("unknown")) ∧
    (classifyReply s = pyLower (pyStrip s) ∨ classifyReply s = ("unknown")) ∧
    classifyReply ("Passport") = ("passport") ∧
    classifyReply ("I think it\x27s a license") = ("unknown") ∧
    classifyReply ("") = ("unknown") := by
  refine ⟨?_, ?_, ?_, by rfl, by rfl, by rfl⟩ <;>
    · intros
      simp only [classifyReply]
      split <;> simp_all

/-- Witness for C4 at the concrete reply `"Passport"`. -/
theorem C4_witness :
    DOCUMENT_TYPES.contains (pyLower (pyStrip ("Passport"))) = true ∧
    classifyReply ("Passport") = ("passport") :=
  ⟨by rfl, ((C4_classification_total ("Passport")).1 (by rfl)).trans (by rfl)⟩

/-- A sample `datetime.now()` value used by concrete witnesses. -/
def sampleNow : PyDateTime := ⟨⟨2026, 10, 12⟩, 1⟩

/-- C3: `validate_field_value` follows the rule table exactly:
`date_of_birth` accepts exactly ISO-pattern strings parsing to a date
strictly before now; `issue_date` accepts exactly ISO-pattern strings;
`expiration_date` accepts exactly ISO-pattern strings parsing to a date
strictly after now; `full_name` and `country` accept exactly strings of
letters/whitespace/hyphen/apostrophe with trimmed length at least two;
keys with no registered rule accept every value. -/
theorem C3_validation_rules (now : PyDateTime) (v : String) :
    ((validate_field_value now ("date_of_birth") v).1 = true ↔
      pyMatchIso v = true ∧ ∃ d, strptimeIso v = Except.ok d ∧
        dtLt (atMidnight d) now = true) ∧
    ((validate_field_value now ("issue_date") v).1 = true ↔
      pyMatchIso v = true) ∧
    ((validate_field_value now ("expiration_date") v).1 = true ↔
      pyMatchIso v = true ∧ ∃ d, strptimeIso v = Except.ok d ∧
        dtLt now (atMidnight d) = true) ∧
    ((validate_field_value now ("full_name") v).1 = true ↔
      pyMatchName v = true ∧ 2 ≤ (pyStrip v).length) ∧
    ((validate_field_value now ("country") v).1 = true ↔
      pyMatchName v = true ∧ 2 ≤ (pyStrip v).length) ∧
    (∀ k, k ∉ validatedKeys → validate_field_value now k v = (true, none)) := by
  have hcs1 : containsSub ("date_of_birth") ("date") = true := by rfl
  have hcs2 : containsSub ("issue_date") ("date") = true := by rfl
  have hcs3 : containsSub ("expiration_date") ("date") = true := by rfl
  have hcs4 : containsSub ("full_name") ("date") = false := by rfl
  have hcs5 : containsSub ("country") ("date") = false := by rfl
  refine ⟨?_, ?_, ?_, ?_, ?_, ?_⟩
  · have hfr : fieldRule ("date_of_birth") = some dobRule := by rfl
    simp only [validate_field_value, hfr]
    by_cases hp : pyMatchIso v = true
    · cases hs : strptimeIso v with
      | error e =>
        have hdr : dobRule now v = Except.error e := by simp [dobRule, hp, hs]
        simp [hdr, hs, hp]
      | ok d =>
        have hdr : dobRule now v = Except.ok (dtLt (atMidnight d) now) := by
          simp [dobRule, hp, hs]
        by_cases hl : dtLt (atMidnight d) now = true
        · simp [hdr, hl, hp, hs]
        · simp only [Bool.not_eq_true] at hl
          simp [hdr, hl, hp, hs, hcs1]
    · simp only [Bool.not_eq_true] at hp
      have hdr : dobRule now v = Except.ok false := by simp [dobRule, hp]
      simp [hdr, hp, hcs1]
  · have hfr : fieldRule ("issue_date") = some issueRule := by rfl
    simp only [validate_field_value, hfr, issueRule]
    by_cases hp : pyMatchIso v = true
    · simp [hp]
    · simp only [Bool.not_eq_true] at hp
      simp [hp, hcs2]
  · have hfr : fieldRule ("expiration_date") = some expRule := by rfl
    simp only [validate_field_value, hfr]
    by_cases hp : pyMatchIso v = true
    · cases hs : strptimeIso v with
      | error e =>
        have hdr : expRule now v = Except.error e := by simp [expRule, hp, hs]
        simp [hdr, hs, hp]
      | ok d =>
        have hdr : expRule now v = Except.ok (dtLt now (atMidnight d)) := by
          simp [expRule, hp, hs]
        by_cases hl : dtLt now (atMidnight d) = true
        · simp [hdr, hl, hp, hs]
        · simp only [Bool.not_eq_true] at hl
          simp [hdr, hl, hp, hs, hcs3]
    · simp only [Bool.not_eq_true] at hp
      have hdr : expRule now v = Except.ok false := by simp [expRule, hp]
      simp [hdr, hp, hcs3]
  · have hfr : fieldRule ("full_name") = some nameRule := by rfl
    simp only [validate_field_value, hfr, nameRule]
    by_cases ha : pyMatchName v = true <;>
      by_cases hb : 2 ≤ (pyStrip v).length <;>
        simp [ha, hb, hcs4]
  · have hfr : fieldRule ("country") = some nameRule := by rfl
    simp only [validate_field_value, hfr, nameRule]
    by_cases ha : pyMatchName v = true <;>
      by_cases hb : 2 ≤ (pyStrip v).length <;>
        simp [ha, hb, hcs5]
  · intro k hk
    simp only [validatedKeys, List.mem_cons, List.not_mem_nil, or_false,
      not_or] at hk
    obtain ⟨h1, h2, h3, h4, h5⟩ := hk
    simp [validate_field_value, fieldRule, h1, h2, h3, h4, h5]

/-- Witness for C3: an unregistered key passes unconditionally, and a past
date of birth is accepted. -/
theorem C3_witness :
    (("passport_number") ∉ validatedKeys ∧
      validate_field_value sampleNow ("passport_number") ("!!") =
        (true, none)) ∧
    (validate_field_value sampleNow ("date_of_birth") ("1990-01-01")).1 =
      true :=
  ⟨⟨by decide, (C3_validation_rules sampleNow ("!!")).2.2.2.2.2
      ("passport_number") (by decide)⟩,
    (C3_validation_rules sampleNow ("1990-01-01")).1.mpr
      ⟨by rfl, ⟨⟨1990, 1, 1⟩, by rfl, by rfl⟩⟩⟩

/-- C6: `convert_date_to_standard_format` tries the fixed ordered format
list (day-month-name-year, month-name-day-year, ISO, US slash, EU slash)
and returns the first successful parse reformatted with `"%Y-%m-%d"`; when
no pattern matches it returns the input unchanged (being a total Lean
function, it never raises).  The concrete conjuncts pin down each format
and the priority of the US pattern over the EU pattern. -/
theorem C6_date_normalizer (s : String) :
    ((∃ d, tryFormats dateFormats s = some d ∧
        convert_date_to_standard_format s = fmtIso d) ∨
      (tryFormats dateFormats s = none ∧
        convert_date_to_standard_format s = s)) ∧
    (∀ d, strpDayMonY s = some d →
      convert_date_to_standard_format s = fmtIso d) ∧
    convert_date_to_standard_format ("03 Oct 1955") = ("1955-10-03") ∧
    convert_date_to_standard_format ("Oct 03 1955") = ("1955-10-03") ∧
    convert_date_to_standard_format ("1955-10-03") = ("1955-10-03") ∧
    convert_date_to_standard_format ("10/03/1955") = ("1955-10-03") ∧
    convert_date_to_standard_format ("03/10/1955") = ("1955-03-10") ∧
    convert_date_to_standard_format ("not a date") = ("not a date") := by
  refine ⟨?_, ?_, by rfl, by rfl, by rfl, by rfl, by rfl, by rfl⟩
  · cases h : tryFormats dateFormats s with
    | some d =>
      exact Or.inl ⟨d, rfl, by simp [convert_date_to_standard_format, h]⟩
    | none =>
      exact Or.inr ⟨rfl, by simp [convert_date_to_standard_format, h]⟩
  · intro d hd
    simp [convert_date_to_standard_format, tryFormats, dateFormats, hd]

/-- Witness for C6 at the concrete input `"03 Oct 1955"`. -/
theorem C6_witness :
    strpDayMonY ("03 Oct 1955") = some ⟨1955, 10, 3⟩ ∧
    convert_date_to_standard_format ("03 Oct 1955") =
      fmtIso ⟨1955, 10, 3⟩ :=
  ⟨by rfl, (C6_date_normalizer ("03 Oct 1955")).2.1 ⟨1955, 10, 3⟩ (by rfl)⟩

/-- Number of rows stored for one `(document_id, key)` pair. -/
def countPair (db : List FieldRec) (docId : Int) (key : String) : Nat :=
  (db.filter (fun f => f.document_id == docId && f.key == key)).length

/-- A failed validation always carries a message. -/
theorem validate_false_isSome (now : PyDateTime) (k v : String)
    (h : (validate_field_value now k v).1 = false) :
    ((validate_field_value now k v).2).isSome = true := by
  unfold validate_field_value at *
  cases hf : fieldRule k with
  | none => simp [hf] at h
  | some rule =>
    simp only [hf] at h ⊢
    cases hr : rule now v with
    | error e => simp [hr]
    | ok b =>
      cases b with
      | true => simp [hr] at h
      | false =>
        simp only [hr]
        split <;> simp

/-- `updateFirst` keeps the table length. -/
theorem updateFirst_length (db : List FieldRec) (docId : Int)
    (key value : String) :
    (updateFirst db docId key value).length = db.length := by
  induction db with
  | nil => rfl
  | cons f rest ih =>
    simp only [updateFirst]
    split <;> simp [ih]

/-- `updateFirst` rewrites the first matching row in place. -/
theorem findField_updateFirst (db : List FieldRec) (docId : Int)
    (key value : String) (f : FieldRec)
    (h : findField db docId key = some f) :
    findField (updateFirst db docId key value) docId key =
      some { f with value := value, is_corrected := 1 } := by
  induction db with
  | nil => simp [findField, List.find?] at h
  | cons g rest ih =>
    by_cases hg : (g.document_id == docId && g.key == key) = true
    · have hf : g = f := by
        simp only [findField, List.find?, hg] at h
        exact (Option.some.injEq _ _).mp h
      subst hf
      simp only [updateFirst, hg, if_true]
      simp only [findField, List.find?]
      have hpred : ((({ g with value := value, is_corrected := 1 } :
          FieldRec).document_id == docId &&
          ({ g with value := value, is_corrected := 1 } :
          FieldRec).key == key)) = true := hg
      rw [hpred]
    · have hff : findField rest docId key = some f := by
        simp only [findField, List.find?] at h ⊢
        rw [Bool.not_eq_true] at hg
        simpa [hg] using h
      simp only [updateFirst, hg, if_false]
      simp only [findField, List.find?] at ih ⊢
      rw [Bool.not_eq_true] at hg
      simp only [hg]
      exact ih hff

/-- `updateFirst` does not change any pair count: the replaced row keeps
its `document_id` and `key`. -/
theorem countPair_updateFirst (db : List FieldRec) (docId : Int)
    (key value : String) (i : Int) (k : String) :
    countPair (updateFirst db docId key value) i k = countPair db i k := by
  induction db with
  | nil => rfl
  | cons f rest ih =>
    simp only [updateFirst]
    split
    · simp only [countPair, List.filter]
      split <;> simp
    · simp only [countPair, List.filter] at ih ⊢
      split <;> simp [ih]

/-- Appending one row adds to exactly its own pair count. -/
theorem countPair_append (db : List FieldRec) (r : FieldRec)
    (i : Int) (k : String) :
    countPair (db ++ [r]) i k =
      countPair db i k +
        (if (r.document_id == i && r.key == k) = true then 1 else 0) := by
  simp only [countPair, List.filter_append]
  split <;> simp_all

/-- An absent pair has count zero. -/
theorem countPair_eq_zero_of_findField_none (db : List FieldRec)
    (docId : Int) (key : String) (h : findField db docId key = none) :
    countPair db docId key = 0 := by
  simp only [findField, List.find?_eq_none] at h
  simp only [countPair, List.length_eq_zero, List.filter_eq_nil_iff]
  intro f hf
  exact h f hf

/-- C2: the correction entry point.  A value failing validation is
rejected with an error message and the stored table is unchanged; a valid
value updates the matching row in place (same number of rows, value
rewritten, corrected-flag set) when one exists, and appends exactly one
new corrected row when none does; consequently at most one row exists per
`(document_id, key)` pair at all times. -/
theorem C2_correction_upsert (now : PyDateTime) (db : List FieldRec)
    (docId : Int) (key value : String) :
    ((validate_field_value now key value).1 = false →
      update_field now db docId key value =
        (db, some (validate_field_value now key value).2) ∧
      ((validate_field_value now key value).2).isSome = true) ∧
    ((validate_field_value now key value).1 = true →
      (update_field now db docId key value).2 = none ∧
      (∀ f, findField db docId key = some f →
        (update_field now db docId key value).1.length = db.length ∧
        findField (update_field now db docId key value).1 docId key =
          some { f with value := value, is_corrected := 1 }) ∧
      (findField db docId key = none →
        (update_field now db docId key value).1 =
          db ++ [⟨docId, key, value, 1⟩])) ∧
    ((∀ i k, countPair db i k ≤ 1) →
      ∀ i k, countPair (update_field now db docId key value).1 i k ≤ 1) := by
  refine ⟨?_, ?_, ?_⟩
  · intro hv
    refine ⟨?_, validate_false_isSome now key value hv⟩
    simp [update_field, hv]
  · intro hv
    simp only [update_field, hv, Bool.not_true, Bool.false_eq_true, if_false]
    cases hf : findField db docId key with
    | some f =>
      refine ⟨rfl, ?_, ?_⟩
      · intro g hg
        obtain rfl : f = g := by injection hg
        exact ⟨updateFirst_length db docId key value,
          findField_updateFirst db docId key value f hf⟩
      · intro hn
        exact absurd hn (by simp)
    | none =>
      refine ⟨rfl, ?_, fun _ => rfl⟩
      intro g hg
      exact absurd hg (by simp)
  · intro hinv i k
    by_cases hv : (validate_field_value now key value).1 = true
    · simp only [update_field, hv, Bool.not_true, Bool.false_eq_true, if_false]
      cases hf : findField db docId key with
      | some f =>
        simp only [countPair_updateFirst]
        exact hinv i k
      | none =>
        rw [countPair_append]
        split
        · rename_i hr
          simp only [Bool.and_eq_true, beq_iff_eq] at hr
          obtain ⟨rfl, rfl⟩ := hr
          have := countPair_eq_zero_of_findField_none db docId key hf
          omega
        · simpa using hinv i k
    · rw [Bool.not_eq_true] at hv
      simp only [update_field, hv]
      simpa using hinv i k

/-- Witness for C2: with an empty table, a valid correction creates
exactly one corrected row. -/
theorem C2_witness :
    (validate_field_value sampleNow ("full_name") ("Jane Doe")).1 = true ∧
    update_field sampleNow [] 1 ("full_name") ("Jane Doe") =
      ([⟨1, ("full_name"), ("Jane Doe"), 1⟩], none) := by
  have h := (C2_correction_upsert sampleNow [] 1 ("full_name")
    ("Jane Doe")).2.1 (by rfl)
  exact ⟨by rfl, by
    have h1 := h.1
    have h2 := h.2.2 (by rfl)
    cases hu : update_field sampleNow [] 1 ("full_name") ("Jane Doe") with
    | mk a b =>
      rw [hu] at h1 h2
      simp at h1 h2
      rw [h1, h2]⟩

/-- Counterexample to C1 as stated: the reply `{"raw_output": "x"}` parses
directly as JSON and has no `document_content` key, so the claim predicts
the whole decoded object as the field map; the pipeline instead takes the
unstructured-recovery branch and produces an empty field map. -/
theorem C1_counterexample :
    jsonParse ("\x7b\"raw_output\": \"x\"\x7d") =
      some (Json.obj [(("raw_output"), Json.str ("x"))]) ∧
    classify_parse
        (extract_fields_reply ("\x7b\"raw_output\": \"x\"\x7d")) =
      some (Json.str ("x"), Json.obj []) ∧
    Json.obj ([] : List (String × Json)) ≠
      Json.obj [(("raw_output"), Json.str ("x"))] :=
  ⟨by rfl, by rfl, by simp⟩

/-- C1 (amended): for every extraction-stage reply whose text parses
directly as a JSON object NOT containing the top-level key `raw_output`,
the field map produced by the parse stage is exactly the value of the
top-level `document_content` key when present, and otherwise the entire
decoded object itself (replies whose decoded object carries `raw_output`
take the unstructured-recovery path instead). -/
theorem C1_direct_json_field_map (text : String)
    (kvs : List (String × Json))
    (hp : jsonParse text = some (Json.obj kvs))
    (hno : lookupObj kvs ("raw_output") = none) :
    classify_parse (extract_fields_reply text) =
      some (Json.str (""),
        match lookupObj kvs ("document_content") with
        | some dc => dc
        | none => Json.obj kvs) := by
  simp only [extract_fields_reply, hp, classify_parse, hno, objGet]

/-- Witness for C1 at a reply with a `document_content` wrapper and one
without. -/
theorem C1_witness :
    classify_parse
        (extract_fields_reply
          ("\x7b\"document_content\": \x7b\"a\": true\x7d\x7d")) =
      some (Json.str (""), Json.obj [(("a"), Json.bool true)]) ∧
    classify_parse (extract_fields_reply ("\x7b\"b\": 7\x7d")) =
      some (Json.str (""), Json.obj [(("b"), Json.num (JNum.int 7))]) :=
  ⟨(C1_direct_json_field_map
      ("\x7b\"document_content\": \x7b\"a\": true\x7d\x7d")
      [(("document_content"), Json.obj [(("a"), Json.bool true)])]
      (by rfl) (by rfl)).trans (by rfl),
    (C1_direct_json_field_map ("\x7b\"b\": 7\x7d")
      [(("b"), Json.num (JNum.int 7))]
      (by rfl) (by rfl)).trans (by rfl)⟩

/-- C10: when the extraction reply parses directly as a JSON object that
contains the top-level key `raw_output` with a string value, the pipeline
treats the whole reply as unstructured: the resulting field map is
`rawChain` of that string value alone — every other top-level key,
including any `document_content`, is discarded, and the value is
fence-stripped and re-parsed exactly as an unstructured reply would be. -/
theorem C10_raw_output_precedence (text : String)
    (kvs : List (String × Json)) (rv : String)
    (hp : jsonParse text = some (Json.obj kvs))
    (hr : lookupObj kvs ("raw_output") = some (Json.str rv)) :
    classify_parse (extract_fields_reply text) =
      some (Json.str rv, rawChain rv) := by
  simp only [extract_fields_reply, hp, classify_parse, hr]

/-- Witness for C10: a reply whose object carries both `raw_output` and a
`document_content`; the field map comes from re-parsing the `raw_output`
string and the sibling `document_content` is discarded. -/
theorem C10_witness :
    classify_parse
        (extract_fields_reply
          ("\x7b\"document_content\": \x7b\"b\": 3\x7d, " ++
            "\"raw_output\": \"\x7b\\\"a\\\": 2\x7d\"\x7d")) =
      some (Json.str ("\x7b\"a\": 2\x7d"),
        Json.obj [(("a"), Json.num (JNum.int 2))]) :=
  (C10_raw_output_precedence
      ("\x7b\"document_content\": \x7b\"b\": 3\x7d, " ++
        "\"raw_output\": \"\x7b\\\"a\\\": 2\x7d\"\x7d")
      [(("document_content"), Json.obj [(("b"), Json.num (JNum.int 3))]),
        (("raw_output"), Json.str ("\x7b\"a\": 2\x7d"))]
      ("\x7b\"a\": 2\x7d") (by rfl) (by rfl)).trans (by rfl)

/-- The empty string is the only Python-falsy string: `raw_json_output`
is persisted exactly when the reply text is non-empty. -/
theorem truthy_str (t : String) :
    truthy (Json.str t) = !t.data.isEmpty := rfl

/-- Counterexample to C5 as stated: the empty reply is not valid JSON
(also after fence-stripping), the parse chain yields the raw-output
result with an empty field map, but nothing at all is persisted — the
claim predicts a `raw_output` row holding the raw text. -/
theorem C5_counterexample :
    jsonParse ("") = none ∧
    jsonParse (cleanedText ("")) = none ∧
    pipelineRows ("") = some [] ∧
    some ([] : List (String × Json)) ≠
      some [(("raw_output"), Json.str (""))] :=
  ⟨by rfl, by rfl, by rfl, by simp⟩

/-- C5 (amended): for every reply text that is not valid JSON even after
stripping the Markdown fence markers, the parsing chain yields the
raw-output result without raising and the field map is empty; the raw
text is persisted under the single reserved key `raw_output` instead of
field rows whenever the reply text is non-empty (the empty string is
falsy in Python, so nothing is persisted for it). -/
theorem C5_nonjson_raw_fallback (text : String)
    (h1 : jsonParse text = none)
    (h2 : jsonParse (cleanedText text) = none) :
    extract_fields_reply text =
      Json.obj [(("raw_output"), Json.str text)] ∧
    classify_parse (extract_fields_reply text) =
      some (Json.str text, Json.obj []) ∧
    pipelineRows text =
      some (if text = ("") then []
        else [(("raw_output"), Json.str text)]) := by
  have he : extract_fields_reply text =
      Json.obj [(("raw_output"), Json.str text)] := by
    simp only [extract_fields_reply, h1]
  have hc : classify_parse (extract_fields_reply text) =
      some (Json.str text, Json.obj []) := by
    rw [he]
    have hl : lookupObj [(("raw_output"), Json.str text)] ("raw_output") =
        some (Json.str text) := by simp [lookupObj]
    simp only [classify_parse, hl, rawChain, h2]
  refine ⟨he, hc, ?_⟩
  simp only [pipelineRows, hc]
  have hn : normalizeDates [] = [] := by rfl
  simp only [hn, persistRows, loopRows, List.filter, List.map_nil,
    List.nil_append, List.isEmpty_nil, Bool.and_true, truthy_str]
  by_cases ht : text = ("")
  · subst ht
    simp
  · have : text.data.isEmpty = false := by
      cases hd : text.data with
      | nil =>
        exact absurd (by cases text with
          | mk l => simp at hd; rw [hd]) ht
      | cons c cs => rfl
    simp [this, ht]

/-- Witness for C5 at the concrete prose reply `"no json here"`. -/
theorem C5_witness :
    pipelineRows ("no json here") =
      some [(("raw_output"), Json.str ("no json here"))] :=
  ((C5_nonjson_raw_fallback ("no json here") (by rfl) (by rfl)).2.2).trans
    (by rfl)

/-- Number of persisted rows carrying a given field key. -/
def countKey (rows : List (String × Json)) (k : String) : Nat :=
  (rows.filter (fun r => r.1 == k)).length

/-- Unfolding one step of the persistence loop. -/
theorem loopRows_cons (kv : String × Json) (rest : List (String × Json)) :
    loopRows (kv :: rest) =
      (if isNull kv.2 then [] else [(kv.1, Json.str (pyStr kv.2))]) ++
        loopRows rest := by
  simp only [loopRows, List.filter_cons]
  split <;> split <;> simp_all

/-- `countKey` distributes over append. -/
theorem countKey_append (a b : List (String × Json)) (k : String) :
    countKey (a ++ b) k = countKey a k + countKey b k := by
  simp [countKey, List.filter_append]

/-- A key absent from the field map gets no loop row. -/
theorem countKey_loopRows_not_mem (kvs : List (String × Json)) (k : String)
    (h : k ∉ kvs.map Prod.fst) : countKey (loopRows kvs) k = 0 := by
  induction kvs with
  | nil => rfl
  | cons kv rest ih =>
    simp only [List.map_cons, List.mem_cons, not_or] at h
    obtain ⟨hk, hrest⟩ := h
    rw [loopRows_cons, countKey_append, ih hrest]
    have hb : (kv.1 == k) = false := by
      simp only [beq_eq_false_iff_ne, ne_eq]
      exact fun he => hk he.symm
    split
    · rfl
    · simp [countKey, List.filter, hb]

/-- With unique keys, a field present in the map gets exactly one loop
row when non-null and none when null. -/
theorem countKey_loopRows_mem (kvs : List (String × Json)) (k : String)
    (v : Json) (hnd : (kvs.map Prod.fst).Nodup) (hm : (k, v) ∈ kvs) :
    countKey (loopRows kvs) k = if isNull v then 0 else 1 := by
  induction kvs with
  | nil => simp at hm
  | cons kv rest ih =>
    simp only [List.map_cons, List.nodup_cons] at hnd
    obtain ⟨hknotin, hndrest⟩ := hnd
    rw [loopRows_cons, countKey_append]
    rcases List.mem_cons.mp hm with heq | htail
    · obtain rfl : kv = (k, v) := heq.symm
      have hz : countKey (loopRows rest) k = 0 :=
        countKey_loopRows_not_mem rest k hknotin
      rw [hz]
      split
      · simp [countKey]
      · simp [countKey, List.filter]
    · have hk : (kv.1 == k) = false := by
        simp only [beq_eq_false_iff_ne, ne_eq]
        intro he
        exact hknotin (he ▸ (List.mem_map_of_mem Prod.fst htail))
      rw [ih hndrest htail]
      split
      · simp [countKey]
      · simp [countKey, List.filter, hk]

/-- Every loop row is the stringification of a non-null field. -/
theorem loopRows_mem (kvs : List (String × Json)) (r : String × Json)
    (h : r ∈ loopRows kvs) :
    ∃ k v, (k, v) ∈ kvs ∧ isNull v = false ∧
      r = (k, Json.str (pyStr v)) := by
  simp only [loopRows, List.mem_map, List.mem_filter] at h
  obtain ⟨kv, ⟨hmem, hnn⟩, hr⟩ := h
  exact ⟨kv.1, kv.2, hmem, by simpa using hnn, hr.symm⟩

/-- Counterexample to C9 as stated: for the reply `{"raw_output": 5}` the
recovery branch fails (`int.replace` raises, caught), the field map is
empty, and the truthy non-string `raw_json_output` value `5` is persisted
unconverted — a persisted value that is not a string. -/
theorem C9_counterexample :
    pipelineRows ("\x7b\"raw_output\": 5\x7d") =
      some [(("raw_output"), Json.num (JNum.int 5))] ∧
    isStrVal (Json.num (JNum.int 5)) = false :=
  ⟨by rfl, by rfl⟩

/-- C9 (amended): at the persistence boundary, the per-field loop writes
exactly one row per field whose value is non-null, every loop-written
value is a string (numbers and other non-string values pass through
`str`), and null-valued fields are dropped entirely; the only other row
ever written is the raw-output fallback row, present exactly when the
field map is empty and `raw_json_output` truthy, and it carries the
`raw_json_output` value as-is (a string except when the reply itself was
a JSON object with a non-string `raw_output` member). -/
theorem C9_persistence_stringified (rawV : Json)
    (kvs : List (String × Json)) (hnd : (kvs.map Prod.fst).Nodup) :
    (∀ k v, (k, v) ∈ kvs → isNull v = false →
      countKey (persistRows rawV kvs) k = 1) ∧
    (∀ k v, (k, v) ∈ kvs → isNull v = true →
      countKey (persistRows rawV kvs) k = 0) ∧
    (∀ r, r ∈ persistRows rawV kvs →
      (∃ k v, (k, v) ∈ kvs ∧ isNull v = false ∧
        r = (k, Json.str (pyStr v))) ∨
      (kvs = [] ∧ truthy rawV = true ∧ r = (("raw_output"), rawV))) := by
  have hraw : ∀ k v, (k, v) ∈ kvs →
      persistRows rawV kvs = loopRows kvs := by
    intro k v hm
    have : kvs.isEmpty = false := by
      cases kvs with
      | nil => simp at hm
      | cons a b => rfl
    simp [persistRows, this]
  refine ⟨?_, ?_, ?_⟩
  · intro k v hm hv
    rw [hraw k v hm]
    have := countKey_loopRows_mem kvs k v hnd hm
    rw [hv] at this
    simpa using this
  · intro k v hm hv
    rw [hraw k v hm]
    have := countKey_loopRows_mem kvs k v hnd hm
    rw [hv] at this
    simpa using this
  · intro r hr
    simp only [persistRows] at hr
    rcases List.mem_append.mp hr with hl | hrr
    · exact Or.inl (loopRows_mem kvs r hl)
    · right
      split at hrr
      · rename_i hcond
        simp only [Bool.and_eq_true] at hcond
        refine ⟨List.isEmpty_iff.mp hcond.2, hcond.1, ?_⟩
        simpa using hrr
      · simp at hrr

/-- Witness for C9: a field map with a string, a number and a null; two
rows are written, the number stringified, the null dropped. -/
theorem C9_witness :
    countKey
      (persistRows (Json.str (""))
        [(("a"), Json.str ("x")), (("b"), Json.num (JNum.int 7)),
          (("c"), Json.null)]) ("b") = 1 ∧
    countKey
      (persistRows (Json.str (""))
        [(("a"), Json.str ("x")), (("b"), Json.num (JNum.int 7)),
          (("c"), Json.null)]) ("c") = 0 :=
  ⟨(C9_persistence_stringified (Json.str (""))
      [(("a"), Json.str ("x")), (("b"), Json.num (JNum.int 7)),
        (("c"), Json.null)] (by simp)).1
      ("b") (Json.num (JNum.int 7)) (by simp) (by rfl),
    (C9_persistence_stringified (Json.str (""))
      [(("a"), Json.str ("x")), (("b"), Json.num (JNum.int 7)),
        (("c"), Json.null)] (by simp)).2.1
      ("c") Json.null (by simp) (by rfl)⟩

/-- Counterexample to C7 as stated: for the date key `date_of_birth` and
the value `2020-02-30` the rule's predicate raises a `ValueError` (day
out of range); the failure message is the exception's own text, not the
date-specific message the claim promises for keys containing `date`. -/
theorem C7_counterexample :
    validate_field_value sampleNow ("date_of_birth") ("2020-02-30") =
      (false, some ("day is out of range for month")) ∧
    containsSub ("date_of_birth") ("date") = true ∧
    (("day is out of range for month") : String) ≠ dateMsg :=
  ⟨by rfl, by rfl, by decide⟩

/-- C7 (amended): `validate_field_value` always returns a pair and never
propagates an exception: a `ValueError` raised by the rule's predicate is
caught and becomes a validation failure whose message is the exception's
own text; when the predicate returns `False` without raising, keys
containing `date` get the date-specific message and all other keys the
generic format message; keys without a rule always pass. -/
theorem C7_validator_messages (now : PyDateTime) (key value : String) :
    (∀ rule, fieldRule key = some rule →
      (∀ e, rule now value = Except.error e →
        validate_field_value now key value = (false, some e)) ∧
      (rule now value = Except.ok false →
        validate_field_value now key value =
          (false, some (if containsSub key ("date") = true then dateMsg
            else ("Invalid format for ") ++ key))) ∧
      (rule now value = Except.ok true →
        validate_field_value now key value = (true, none))) ∧
    (fieldRule key = none →
      validate_field_value now key value = (true, none)) := by
  refine ⟨?_, ?_⟩
  · intro rule hr
    refine ⟨?_, ?_, ?_⟩
    · intro e he
      simp only [validate_field_value, hr, he]
    · intro hf
      simp only [validate_field_value, hr, hf]
      split <;> simp_all
    · intro ht
      simp only [validate_field_value, hr, ht]
  · intro hn
    simp only [validate_field_value, hn]

/-- Witness for C7: the expiration rule raising on February 31st yields
the exception text; the name rule returning `False` yields the generic
message. -/
theorem C7_witness :
    validate_field_value sampleNow ("expiration_date") ("2030-02-31") =
      (false, some ("day is out of range for month")) ∧
    validate_field_value sampleNow ("full_name") ("A") =
      (false, some ("Invalid format for full_name")) :=
  ⟨((C7_validator_messages sampleNow ("expiration_date")
      ("2030-02-31")).1 expRule (by rfl)).1
      ("day is out of range for month") (by rfl),
    (((C7_validator_messages sampleNow ("full_name") ("A")).1 nameRule
      (by rfl)).2.1 (by rfl)).trans (by rfl)⟩

/-- Months never exceed thirty-one days. -/
theorem daysInMonth_le_31 (y m : Nat) : daysInMonth y m ≤ 31 := by
  unfold daysInMonth
  split
  · split <;> omega
  · split <;> omega

/-- A successful `datetime` construction pins the fields and bounds. -/
theorem mkDateE_ok (y m d : Nat) (p : PyDate)
    (h : mkDateE y m d = Except.ok p) :
    p = ⟨y, m, d⟩ ∧ 1 ≤ y ∧ y ≤ 9999 ∧ 1 ≤ m ∧ m ≤ 12 ∧ 1 ≤ d ∧
      d ≤ 31 := by
  unfold mkDateE at h
  split at h
  · exact absurd h (by simp)
  · split at h
    · exact absurd h (by simp)
    · split at h
      · exact absurd h (by simp)
      · have hp : p = ⟨y, m, d⟩ := by
          injection h with h'
          exact h'.symm
        have h31 := daysInMonth_le_31 y m
        simp_all
        omega

/-- The `Option` form of the constructor check. -/
theorem mkDate?_ok (y m d : Nat) (p : PyDate)
    (h : mkDate? y m d = some p) :
    p = ⟨y, m, d⟩ ∧ 1 ≤ y ∧ y ≤ 9999 ∧ 1 ≤ m ∧ m ≤ 12 ∧ 1 ≤ d ∧
      d ≤ 31 := by
  unfold mkDate? at h
  cases he : mkDateE y m d with
  | error e => rw [he] at h; exact absurd h (by simp [Except.toOption])
  | ok q =>
    rw [he] at h
    simp only [Except.toOption] at h
    obtain rfl : q = p := by injection h
    exact mkDateE_ok y m d _ he

/-- A successful `finishDate` goes through the constructor check. -/
theorem finishDate_ok (r : Option (Nat × Nat × Nat × List Char))
    (p : PyDate) (h : finishDate r = some p) :
    ∃ y m d, mkDate? y m d = some p := by
  cases r with
  | none => simp [finishDate] at h
  | some t =>
    obtain ⟨y, m, d, rest⟩ := t
    simp only [finishDate] at h
    split at h
    · exact ⟨y, m, d, h⟩
    · simp at h

/-- A successful ISO `strptime` goes through the constructor check. -/
theorem strpIso_ok (s : String) (p : PyDate) (h : strpIso s = some p) :
    ∃ y m d, mkDate? y m d = some p := by
  unfold strpIso strptimeIso at h
  cases ht : isoTokens s.data with
  | none => rw [ht] at h; simp [Except.toOption] at h
  | some t =>
    obtain ⟨y, m, d, rest⟩ := t
    rw [ht] at h
    simp only at h
    split at h
    · exact ⟨y, m, d, h⟩
    · simp [Except.toOption] at h

/-- Any format of the loop that succeeds went through the constructor
check, so the resulting date satisfies the calendar bounds. -/
theorem tryFormats_bounds (s : String) (p : PyDate)
    (h : tryFormats dateFormats s = some p) :
    1 ≤ p.year ∧ p.year ≤ 9999 ∧ 1 ≤ p.month ∧ p.month ≤ 12 ∧
      1 ≤ p.day ∧ p.day ≤ 31 := by
  have hex : ∃ y m d, mkDate? y m d = some p := by
    simp only [tryFormats, dateFormats] at h
    cases h1 : strpDayMonY s with
    | some q =>
      rw [h1] at h
      obtain rfl : q = p := by injection h
      exact finishDate_ok _ _ h1
    | none =>
      rw [h1] at h
      cases h2 : strpMonDayY s with
      | some q =>
        rw [h2] at h
        obtain rfl : q = p := by injection h
        exact finishDate_ok _ _ h2
      | none =>
        rw [h2] at h
        cases h3 : strpIso s with
        | some q =>
          rw [h3] at h
          obtain rfl : q = p := by injection h
          exact strpIso_ok s _ h3
        | none =>
          rw [h3] at h
          cases h4 : strpUsSlash s with
          | some q =>
            rw [h4] at h
            obtain rfl : q = p := by injection h
            exact finishDate_ok _ _ h4
          | none =>
            rw [h4] at h
            cases h5 : strpEuSlash s with
            | some q =>
              rw [h5] at h
              obtain rfl : q = p := by injection h
              exact finishDate_ok _ _ h5
            | none => rw [h5] at h; exact absurd h (by simp)
  obtain ⟨y, m, d, hmk⟩ := hex
  obtain ⟨rfl, hb⟩ := mkDate?_ok y m d p hmk
  exact hb

/-- Decompose a string matching the strict ten-character ISO shape. -/
theorem isoShape_decomp (cs : List Char) (h : isoShapeL cs = true) :
    ∃ c1 c2 c3 c4 c5 c6 c7 c8,
      cs = [c1, c2, c3, c4, '-', c5, c6, '-', c7, c8] ∧
      isDigitC c1 = true ∧ isDigitC c2 = true ∧ isDigitC c3 = true ∧
      isDigitC c4 = true ∧ isDigitC c5 = true ∧ isDigitC c6 = true ∧
      isDigitC c7 = true ∧ isDigitC c8 = true := by
  unfold isoShapeL at h
  split at h
  · rename_i a b c d e f g i j k
    simp only [Bool.and_eq_true, beq_iff_eq] at h
    refine ⟨a, b, c, d, f, g, j, k, ?_, ?_, ?_, ?_, ?_, ?_, ?_, ?_, ?_⟩ <;>
      simp_all
  · exact absurd h (by simp)

/-- `"%d %b %Y"` never matches a string in strict ISO shape: whitespace is
required where the shape has a digit. -/
theorem strpDayMonY_shape (s : String) (h : isoShapeL s.data = true) :
    strpDayMonY s = none := by
  obtain ⟨c1, c2, c3, c4, c5, c6, c7, c8, hdata, h1, h2, h3, h4, h5, h6,
    h7, h8⟩ := isoShape_decomp s.data h
  simp only [strpDayMonY, numTokThen, twoDigitTok, oneDigitTok, hdata,
    h1, h2, Bool.and_self, if_true]
  split_ifs <;>
    simp [wsTok, isPyWs_digit h2, isPyWs_digit h3, finishDate]

/-- `"%b %d %Y"` never matches a string in strict ISO shape: the month
name cannot start with a digit. -/
theorem strpMonDayY_shape (s : String) (h : isoShapeL s.data = true) :
    strpMonDayY s = none := by
  obtain ⟨c1, c2, c3, c4, c5, c6, c7, c8, hdata, h1, h2, h3, h4, h5, h6,
    h7, h8⟩ := isoShape_decomp s.data h
  simp only [strpMonDayY, hdata, monthAbbrev_digit h1, finishDate]

/-- `"%m/%d/%Y"` never matches a string in strict ISO shape: a slash is
required where the shape has a digit. -/
theorem strpUsSlash_shape (s : String) (h : isoShapeL s.data = true) :
    strpUsSlash s = none := by
  obtain ⟨c1, c2, c3, c4, c5, c6, c7, c8, hdata, h1, h2, h3, h4, h5, h6,
    h7, h8⟩ := isoShape_decomp s.data h
  simp only [strpUsSlash, numTokThen, twoDigitTok, oneDigitTok, hdata,
    h1, h2, Bool.and_self, if_true]
  split_ifs <;>
    simp [litTok, beq_slash_digit h2, beq_slash_digit h3, finishDate]

/-- `"%d/%m/%Y"` never matches a string in strict ISO shape. -/
theorem strpEuSlash_shape (s : String) (h : isoShapeL s.data = true) :
    strpEuSlash s = none := by
  obtain ⟨c1, c2, c3, c4, c5, c6, c7, c8, hdata, h1, h2, h3, h4, h5, h6,
    h7, h8⟩ := isoShape_decomp s.data h
  simp only [strpEuSlash, numTokThen, twoDigitTok, oneDigitTok, hdata,
    h1, h2, Bool.and_self, if_true]
  split_ifs <;>
    simp [litTok, beq_slash_digit h2, beq_slash_digit h3, finishDate]

/-- Four-digit years print back to their four digits. -/
theorem yearChars_4digit (va vb vc vd : Nat) (ha : va ≤ 9) (hb : vb ≤ 9)
    (hc : vc ≤ 9) (hd : vd ≤ 9) (hpos : 1 ≤ va) :
    yearChars (((va * 10 + vb) * 10 + vc) * 10 + vd) =
      [digitChar10 va, digitChar10 vb, digitChar10 vc, digitChar10 vd] := by
  have e1 : (((va * 10 + vb) * 10 + vc) * 10 + vd) / 1000 % 10 = va := by
    omega
  have e2 : (((va * 10 + vb) * 10 + vc) * 10 + vd) / 100 % 10 = vb := by
    omega
  have e3 : (((va * 10 + vb) * 10 + vc) * 10 + vd) / 10 % 10 = vc := by
    omega
  have e4 : (((va * 10 + vb) * 10 + vc) * 10 + vd) % 10 = vd := by omega
  unfold yearChars
  rw [if_neg (by omega), if_neg (by omega), if_neg (by omega), e1, e2,
    e3, e4]

/-- Two-digit fields print back to their two digits. -/
theorem pad2_digits (va vb : Nat) (ha : va ≤ 9) (hb : vb ≤ 9) :
    (va * 10 + vb) / 10 % 10 = va ∧ (va * 10 + vb) % 10 = vb := by omega

/-- On a strict-shape string whose year does not start with `0`, a
successful ISO parse re-prints to exactly the input string. -/
theorem strpIso_shape_fmt (s : String) (h : isoShapeL s.data = true)
    (hnz : s.data.head? ≠ some '0') (p : PyDate)
    (hp : strpIso s = some p) : fmtIso p = s := by
  obtain ⟨c1, c2, c3, c4, c5, c6, c7, c8, hdata, h1, h2, h3, h4, h5, h6,
    h7, h8⟩ := isoShape_decomp s.data h
  have hc1 : c1 ≠ '0' := by
    rw [hdata] at hnz
    simpa using hnz
  have hv1 := digitVal_le9 h1
  have hv2 := digitVal_le9 h2
  have hv3 := digitVal_le9 h3
  have hv4 := digitVal_le9 h4
  have hv5 := digitVal_le9 h5
  have hv6 := digitVal_le9 h6
  have hv7 := digitVal_le9 h7
  have hv8 := digitVal_le9 h8
  unfold strpIso strptimeIso at hp
  rw [hdata] at hp
  by_cases hM1 : 1 ≤ digitVal c5 * 10 + digitVal c6
  · by_cases hM2 : digitVal c5 * 10 + digitVal c6 ≤ 12
    · by_cases hD1 : 1 ≤ digitVal c7 * 10 + digitVal c8
      · by_cases hD2 : digitVal c7 * 10 + digitVal c8 ≤ 31
        · -- the successful parse: month and day taken as two digits
          simp only [isoTokens, yearTok, h1, h2, h3, h4, Bool.and_self,
            if_true, litTok, numTokThen, twoDigitTok, oneDigitTok, h5,
            h6, h7, h8, beq_self_eq_true, hM1, hM2, hD1, hD2,
            decide_True, Bool.and_self, if_true, List.isEmpty_nil,
            if_true] at hp
          obtain ⟨rfl, hb⟩ := mkDate?_ok _ _ _ p hp
          cases s with
          | mk l =>
            simp only at hdata
            subst hdata
            have hpos := digitVal_pos h1 hc1
            show String.mk _ = String.mk _
            simp only [fmtIso,
              yearChars_4digit _ _ _ _ hv1 hv2 hv3 hv4 hpos,
              (pad2_digits _ _ hv5 hv6).1, (pad2_digits _ _ hv5 hv6).2,
              (pad2_digits _ _ hv7 hv8).1, (pad2_digits _ _ hv7 hv8).2,
              digitChar10_digitVal h1, digitChar10_digitVal h2,
              digitChar10_digitVal h3, digitChar10_digitVal h4,
              digitChar10_digitVal h5, digitChar10_digitVal h6,
              digitChar10_digitVal h7, digitChar10_digitVal h8]
            rfl
        · -- day out of the two-digit range: one-digit day leaves the
          -- last character unconsumed, so strptime raises
          by_cases h57 : 1 ≤ digitVal c7
          · simp [isoTokens, yearTok, h1, h2, h3, h4, litTok,
              numTokThen, twoDigitTok, oneDigitTok, h5, h6, h7, h8,
              beq_dash_digit h6, hM1, hM2, hD2, h57,
              Except.toOption] at hp
          · by_cases h55 : 1 ≤ digitVal c5
            · simp [isoTokens, yearTok, h1, h2, h3, h4, litTok,
                numTokThen, twoDigitTok, oneDigitTok, h5, h6, h7, h8,
                beq_dash_digit h6, hM1, hM2, hD2, h57, h55,
                Except.toOption] at hp
            · simp [isoTokens, yearTok, h1, h2, h3, h4, litTok,
                numTokThen, twoDigitTok, oneDigitTok, h5, h6, h7, h8,
                beq_dash_digit h6, hM1, hM2, hD2, h57, h55,
                Except.toOption] at hp
      · -- day digits are both zero
        have h57 : ¬ 1 ≤ digitVal c7 := by omega
        have h58 : ¬ 1 ≤ digitVal c7 * 10 + digitVal c8 := hD1
        by_cases h55 : 1 ≤ digitVal c5
        · simp [isoTokens, yearTok, h1, h2, h3, h4, litTok, numTokThen,
            twoDigitTok, oneDigitTok, h5, h6, h7, h8, beq_dash_digit h6,
            hM1, hM2, h58, h57, h55, Except.toOption] at hp
        · simp [isoTokens, yearTok, h1, h2, h3, h4, litTok, numTokThen,
            twoDigitTok, oneDigitTok, h5, h6, h7, h8, beq_dash_digit h6,
            hM1, hM2, h58, h57, h55, Except.toOption] at hp
    · -- month above twelve: the one-digit fallback hits the dash
      by_cases h55 : 1 ≤ digitVal c5
      · simp [isoTokens, yearTok, h1, h2, h3, h4, litTok, numTokThen,
          twoDigitTok, oneDigitTok, h5, h6, h7, h8, beq_dash_digit h6,
          hM1, hM2, h55, Except.toOption] at hp
      · simp [isoTokens, yearTok, h1, h2, h3, h4, litTok, numTokThen,
          twoDigitTok, oneDigitTok, h5, h6, h7, h8, beq_dash_digit h6,
          hM1, hM2, h55, Except.toOption] at hp
  · -- month digits are both zero
    have h55 : ¬ 1 ≤ digitVal c5 := by omega
    simp [isoTokens, yearTok, h1, h2, h3, h4, litTok, numTokThen,
      twoDigitTok, oneDigitTok, h5, h6, h7, h8, beq_dash_digit h6, hM1,
      h55, Except.toOption] at hp

/-- A formatted date with a four-digit year matches the validator's ISO
pattern. -/
theorem pyMatchIso_fmtIso (p : PyDate) (hy : 1000 ≤ p.year)
    (hy2 : p.year ≤ 9999) : pyMatchIso (fmtIso p) = true := by
  have e1 : isDigitC (digitChar10 (p.year / 1000 % 10)) = true :=
    isDigitC_digitChar10 (by omega)
  have e2 : isDigitC (digitChar10 (p.year / 100 % 10)) = true :=
    isDigitC_digitChar10 (by omega)
  have e3 : isDigitC (digitChar10 (p.year / 10 % 10)) = true :=
    isDigitC_digitChar10 (by omega)
  have e4 : isDigitC (digitChar10 (p.year % 10)) = true :=
    isDigitC_digitChar10 (by omega)
  have e5 : isDigitC (digitChar10 (p.month / 10 % 10)) = true :=
    isDigitC_digitChar10 (by omega)
  have e6 : isDigitC (digitChar10 (p.month % 10)) = true :=
    isDigitC_digitChar10 (by omega)
  have e7 : isDigitC (digitChar10 (p.day / 10 % 10)) = true :=
    isDigitC_digitChar10 (by omega)
  have e8 : isDigitC (digitChar10 (p.day % 10)) = true :=
    isDigitC_digitChar10 (by omega)
  unfold fmtIso yearChars
  rw [if_neg (by omega), if_neg (by omega), if_neg (by omega)]
  simp [pyMatchIso, isoShapeL, e1, e2, e3, e4, e5, e6, e7, e8]

/-- Counterexample to C8 as stated: `"0055-01-01"` is in canonical ISO
`YYYY-MM-DD` form, yet normalization returns `"55-01-01"` (the platform's
`strftime` does not zero-pad years below 1000), which is a different
string and no longer matches the validator's ISO pattern. -/
theorem C8_counterexample :
    isoShapeL ("0055-01-01").data = true ∧
    convert_date_to_standard_format ("0055-01-01") = ("55-01-01") ∧
    (("55-01-01") : String) ≠ ("0055-01-01") ∧
    pyMatchIso ("55-01-01") = false :=
  ⟨by rfl, by rfl, by decide, by rfl⟩

/-- C8 (amended): normalization is idempotent on canonical ISO strings
whose year field is at least 1000 (first digit non-zero): such strings,
and any string no supported format parses, come back unchanged; and the
round-trip re-validates whenever the parsed year is at least 1000: the
output of normalizing any string that some supported format parses to a
year from 1000 on matches the validator's ISO pattern.  Years below 1000
break both halves because the platform's `strftime("%Y")` drops their
leading zeros. -/
theorem C8_normalization_roundtrip (s : String) :
    (isoShapeL s.data = true → s.data.head? ≠ some '0' →
      convert_date_to_standard_format s = s) ∧
    (tryFormats dateFormats s = none →
      convert_date_to_standard_format s = s) ∧
    (∀ d, tryFormats dateFormats s = some d → 1000 ≤ d.year →
      pyMatchIso (convert_date_to_standard_format s) = true) := by
  refine ⟨?_, ?_, ?_⟩
  · intro hs hnz
    have hf1 := strpDayMonY_shape s hs
    have hf2 := strpMonDayY_shape s hs
    have hf4 := strpUsSlash_shape s hs
    have hf5 := strpEuSlash_shape s hs
    cases h3 : strpIso s with
    | some p =>
      have := strpIso_shape_fmt s hs hnz p h3
      simp [convert_date_to_standard_format, tryFormats, dateFormats,
        hf1, hf2, h3, this]
    | none =>
      simp [convert_date_to_standard_format, tryFormats, dateFormats,
        hf1, hf2, h3, hf4, hf5]
  · intro hn
    simp [convert_date_to_standard_format, hn]
  · intro d hd hy
    have hb := tryFormats_bounds s d hd
    have : convert_date_to_standard_format s = fmtIso d := by
      simp [convert_date_to_standard_format, hd]
    rw [this]
    exact pyMatchIso_fmtIso d hy hb.2.1

/-- Witness for C8: the canonical `"2020-01-05"` is a fixed point, and a
slash date round-trips into the ISO pattern. -/
theorem C8_witness :
    convert_date_to_standard_format ("2020-01-05") = ("2020-01-05") ∧
    pyMatchIso (convert_date_to_standard_format ("1/5/2020")) = true :=
  ⟨(C8_normalization_roundtrip ("2020-01-05")).1 (by rfl) (by decide),
    (C8_normalization_roundtrip ("1/5/2020")).2.2 ⟨2020, 1, 5⟩ (by rfl)
      (by decide)⟩
